import Mathlib

/-!
Shallow embedding of `GenBlueprint.py` (AnsibleBlueprint): the snapshot-to-playbook
synthesis engine.  Text is modelled as `List Char`; the Python string operations the
program uses (`strip`, `split('\n')`, `split(sep)`, `split(None, maxsplit)`, `join`,
`in`, `int(...)`, `str(...)`) are embedded as executable functions below, and each
generator of the source file is embedded as a pure function from the snapshot to the
document text it writes.  Fallible Python expressions (exceptions) return `Option`.
-/

set_option maxRecDepth 8192

/-- Python whitespace predicate in the ASCII range, as used by `str.strip()` and
`str.split(None)` (`' '`, `'\t'`, `'\n'`, `'\r'`, `'\x0b'`, `'\x0c'`).  Non-ASCII
Unicode whitespace is outside the modelled character range. -/
def isPySpace (c : Char) : Bool :=
  c = ' ' || c = '\t' || c = '\n' || c = '\r' || c = '\x0b' || c = '\x0c'

/-- Python `s.strip()`: remove leading and trailing whitespace. -/
def pyStrip (s : List Char) : List Char :=
  ((s.dropWhile isPySpace).reverse.dropWhile isPySpace).reverse

/-- Python `s.split('\n')`: split on every newline character, keeping empty
pieces; `''.split('\n') = ['']`. -/
def splitOnNl : List Char → List (List Char)
  | [] => [[]]
  | c :: cs =>
    if c = '\n' then [] :: splitOnNl cs
    else
      match splitOnNl cs with
      | [] => [[c]]
      | r :: rs => (c :: r) :: rs

/-- Python `sep.join(xs)`. -/
def pyJoin (sep : List Char) : List (List Char) → List Char
  | [] => []
  | [x] => x
  | x :: y :: ys => x ++ sep ++ pyJoin sep (y :: ys)

/-- Python `needle in hay` on strings: substring containment. -/
def pyContains (needle : List Char) : List Char → Bool
  | [] => needle.isEmpty
  | c :: cs => needle.isPrefixOf (c :: cs) || pyContains needle cs

/-- Worker for `s.split(sep)` with a nonempty string separator: cut at each
leftmost non-overlapping occurrence of `sep`.  `fuel` only bounds recursion and
is in practice at least `s.length`, so the `0, s` fallback is never reached. -/
def pySplitSepAux (sep : List Char) : Nat → List Char → List (List Char)
  | _, [] => [[]]
  | 0, s => [s]
  | fuel + 1, c :: cs =>
    if sep.isPrefixOf (c :: cs) && !sep.isEmpty then
      [] :: pySplitSepAux sep fuel ((c :: cs).drop sep.length)
    else
      match pySplitSepAux sep fuel cs with
      | [] => [[c]]
      | r :: rs => (c :: r) :: rs

/-- Python `s.split(sep)` for a nonempty string separator. -/
def pySplitSep (sep s : List Char) : List (List Char) :=
  pySplitSepAux sep s.length s

/-- Number of non-overlapping occurrences of `sep` in `s`. -/
def countOccur (sep s : List Char) : Nat :=
  (pySplitSep sep s).length - 1

/-- Worker for Python `s.split(None, maxsplit)`: runs of whitespace separate
tokens, leading/trailing whitespace produces no empty tokens, and once
`maxsplit` reaches `0` the rest of the string (after skipping the separating
whitespace) is returned verbatim as the final element.  `fuel` only bounds
recursion; one token consumes at least one character, so `s.length + 1` fuel
always suffices. -/
def pySplitNoneAux : Nat → Nat → List Char → List (List Char)
  | 0, _, _ => []
  | fuel + 1, maxsplit, s =>
    if (s.dropWhile isPySpace).isEmpty then []
    else if maxsplit = 0 then [s.dropWhile isPySpace]
    else
      (s.dropWhile isPySpace).takeWhile (fun c => !isPySpace c) ::
        pySplitNoneAux fuel (maxsplit - 1)
          (((s.dropWhile isPySpace).dropWhile (fun c => !isPySpace c)))

/-- Python `s.split(None, maxsplit)`. -/
def pySplit (maxsplit : Nat) (s : List Char) : List (List Char) :=
  pySplitNoneAux (s.length + 1) maxsplit s

/-- Python `s.split()` (whitespace split without a bound: the bound
`s.length + 1` can never be exhausted). -/
def pySplitWs (s : List Char) : List (List Char) :=
  pySplitNoneAux (s.length + 1) (s.length + 1) s

/-- Validity of the digit part of a Python integer literal after its first
digit: digits, with single underscores allowed only between digits. -/
def pyIntDigitsOK : List Char → Bool
  | [] => true
  | '_' :: c :: cs => c.isDigit && pyIntDigitsOK cs
  | ['_'] => false
  | c :: cs => c.isDigit && pyIntDigitsOK cs

/-- Numeric value of a digit string, ignoring underscores. -/
def pyIntDigitsVal (s : List Char) : Nat :=
  s.foldl (fun a c => if c = '_' then a else a * 10 + (c.toNat - 48)) 0

/-- Parse an unsigned decimal body for Python `int(...)`. -/
def pyIntOfBody : List Char → Option Int
  | [] => none
  | c :: cs =>
    if c.isDigit && pyIntDigitsOK cs then some (pyIntDigitsVal (c :: cs)) else none

/-- Python `int(s)` on a decimal string: surrounding whitespace is stripped, an
optional sign is allowed, then ASCII digits (with underscores between digits);
`none` models the `ValueError` raised on anything else. -/
def pyInt (s : List Char) : Option Int :=
  match pyStrip s with
  | '+' :: rest => pyIntOfBody rest
  | '-' :: rest => (pyIntOfBody rest).map (fun n => -n)
  | t => pyIntOfBody t

/-- Decimal digits of a positive natural (worker with recursion fuel). -/
def natDigitsAux : Nat → Nat → List Char
  | 0, _ => []
  | _, 0 => []
  | fuel + 1, n + 1 => natDigitsAux fuel ((n + 1) / 10) ++ [Char.ofNat (48 + (n + 1) % 10)]

/-- Python `str(n)` for a natural number. -/
def pyStrNat (n : Nat) : List Char :=
  if n = 0 then ['0'] else natDigitsAux (n + 1) n

/-- Python `str(i)` for an integer. -/
def pyStrInt (i : Int) : List Char :=
  if i < 0 then '-' :: pyStrNat i.natAbs else pyStrNat i.natAbs

/-! ## Snapshot data model (section 3 of the spec, fields read by `GenBlueprint.py`) -/

/-- One element of `installed_packages`; only `name` is read by the generator. -/
structure Package where
  name : List Char
  version : List Char
  deriving DecidableEq

/-- One element of `services`; only `name` is read by the generator. -/
structure Service where
  name : List Char
  state : List Char
  deriving DecidableEq

/-- The `network` mapping; `ip_addr` itself is fetched with a default. -/
structure NetworkInfo where
  ip_addr : Option (List Char)
  deriving DecidableEq

/-- The snapshot JSON object, restricted to the keys `GenBlueprint.py` reads.
Every field is optional because the code fetches each with `data.get(...)`;
`crontab` is a mapping from username to raw crontab text. -/
structure Snapshot where
  hostname : Option (List Char)
  public_ip : Option (List Char)
  ssh_config : Option (List Char)
  crontab : Option (List (List Char × List Char))
  installed_packages : Option (List Package)
  services : Option (List Service)
  network : Option NetworkInfo
  deriving DecidableEq

/-- `data.get('hostname', 'unknown')` (line 217). -/
def hostnameOf (data : Snapshot) : List Char :=
  data.hostname.getD "unknown".data

/-- `data.get('public_ip', 'unknown')` (line 220). -/
def publicIpOf (data : Snapshot) : List Char :=
  data.public_ip.getD "unknown".data

/-- `data.get('ssh_config', '')` (lines 138, 221). -/
def sshConfigOf (data : Snapshot) : List Char :=
  data.ssh_config.getD []

/-- `data.get('crontab', {}).get('root', '')` (lines 167-168). -/
def rootCrontabOf (data : Snapshot) : List Char :=
  match (data.crontab.getD []).lookup "root".data with
  | some t => t
  | none => []

/-! ## Playbook generators (the pure content each generator writes to disk) -/

/-- `generate_packages_playbook` (lines 23-45): the text written to
`playbooks/packages.yml`. -/
def generate_packages_playbook (data : Snapshot) : List Char :=
  "\n---\n- hosts: all\n  become: yes\n  tasks:\n    - name: Install required packages\n      apt:\n        name: \"\x7b\x7b item \x7d\x7d\"\n        state: present\n        update_cache: yes\n      loop:\n        - ".data
    ++ pyJoin "\n        - ".data ((data.installed_packages.getD []).map Package.name)
    ++ "\n    ".data

/-- `generate_services_playbook` (lines 47-68): the text written to
`playbooks/services.yml`. -/
def generate_services_playbook (data : Snapshot) : List Char :=
  "\n---\n- hosts: all\n  become: yes\n  tasks:\n    - name: Ensure services are running\n      service:\n        name: \"\x7b\x7b item \x7d\x7d\"\n        state: started\n      loop:\n        - ".data
    ++ pyJoin "\n        - ".data ((data.services.getD []).map Service.name)
    ++ "\n    ".data

/-- `generate_network_playbook` (lines 70-89): the text written to
`playbooks/network.yml`. -/
def generate_network_playbook (data : Snapshot) : List Char :=
  "\n---\n- hosts: all\n  become: yes\n  tasks:\n    - name: Display network configuration (for manual intervention)\n      debug:\n        msg: \"Current network configuration: ".data
    ++ ((data.network.getD ⟨none⟩).ip_addr.getD "N/A".data)
    ++ "\"\n    ".data

/-- `generate_main_playbook` (lines 91-107): the fixed text written to
`playbooks/{hostname}.yml`. -/
def generate_main_playbook_content : List Char :=
  "\n---\n- import_playbook: packages.yml\n- import_playbook: services.yml\n- import_playbook: network.yml\n- import_playbook: ssh.yml\n- import_playbook: crontab.yml\n    ".data

/-- The path `f"playbooks/\x7bhostname\x7d.yml"` the main playbook is written to
(line 106). -/
def generate_main_playbook_path (hostname : List Char) : List Char :=
  "playbooks/".data ++ hostname ++ ".yml".data

/-- `inventory_entry` (line 119):
`f"\x7bhostname\x7d ansible_host=\x7bpublic_ip\x7d ansible_user=root ansible_port=\x7bssh_port\x7d"`. -/
def inventory_entry (hostname public_ip : List Char) (ssh_port : Int) : List Char :=
  hostname ++ " ansible_host=".data ++ public_ip
    ++ " ansible_user=root ansible_port=".data ++ pyStrInt ssh_port

/-- `update_inventory` (lines 109-129) acting on the inventory file state
(`none` = file does not exist, `some c` = file exists with contents `c`):
create the file with one entry, append `"\n" + entry` when the hostname is not
a substring of the contents, and otherwise leave the file unchanged. -/
def update_inventory (hostname public_ip : List Char) (ssh_port : Int) :
    Option (List Char) → Option (List Char)
  | some content =>
    if pyContains hostname content then some content
    else some (content ++ '\n' :: inventory_entry hostname public_ip ssh_port)
  | none => some (inventory_entry hostname public_ip ssh_port)

/-- The filter of line 139: `line.strip() and not line.strip().startswith('#')`. -/
def keepSshLine (line : List Char) : Bool :=
  !(pyStrip line).isEmpty && !("#".data.isPrefixOf (pyStrip line))

/-- `indented_ssh_config` (line 139): keep the lines accepted by `keepSshLine`,
prefix each with ten spaces, and join with newlines. -/
def indented_ssh_config (ssh_config : List Char) : List Char :=
  pyJoin "\n".data
    (((splitOnNl ssh_config).filter keepSshLine).map (fun line => "          ".data ++ line))

/-- `generate_ssh_playbook` (lines 131-158): the text written to
`playbooks/ssh.yml`. -/
def generate_ssh_playbook (data : Snapshot) : List Char :=
  "---\n- hosts: all\n  become: yes\n  tasks:\n    - name: Configure SSH\n      copy:\n        content: |\n".data
    ++ indented_ssh_config (sshConfigOf data)
    ++ "\n        dest: /etc/ssh/sshd_config\n        owner: root\n        group: root\n        mode: \x270644\x27\n    - name: Restart SSH service\n      service:\n        name: sshd\n        state: restarted\n".data

/-- One cron task record: the values interpolated into the crontab task
template of lines 179-190.  `idx` is the `i+1` used in the task and entry
names. -/
structure CronEntry where
  idx : Nat
  minute : List Char
  hour : List Char
  day : List Char
  month : List Char
  weekday : List Char
  command : List Char
  deriving DecidableEq

/-- The body of the loop of lines 175-190 for one enumerated line: split the
line into at most 6 whitespace fields and keep it exactly when that yields 6
parts. -/
def cronLineTask (p : Nat × List Char) : Option CronEntry :=
  match pySplit 5 p.2 with
  | [m, h, d, mo, w, c] => some ⟨p.1 + 1, m, h, d, mo, w, c⟩
  | _ => none

/-- Lines 171-190 of `generate_crontab_playbook`: strip the root crontab text,
split it into lines, and keep one `CronEntry` per line that yields exactly 6
whitespace fields (the 6th being the unsplit remainder). -/
def cronEntriesOf (root_crontab : List Char) : List CronEntry :=
  ((splitOnNl (pyStrip root_crontab)).enum).filterMap cronLineTask

/-- The f-string of lines 179-190 rendered for one entry. -/
def cronTaskString (e : CronEntry) : List Char :=
  "\n    - name: Configure root crontab entry ".data ++ pyStrNat e.idx
    ++ "\n      cron:\n        name: \"Root crontab entry ".data ++ pyStrNat e.idx
    ++ "\"\n        user: root\n        minute: \"".data ++ e.minute
    ++ "\"\n        hour: \"".data ++ e.hour
    ++ "\"\n        day: \"".data ++ e.day
    ++ "\"\n        month: \"".data ++ e.month
    ++ "\"\n        weekday: \"".data ++ e.weekday
    ++ "\"\n        job: \"".data ++ e.command
    ++ "\"\n".data

/-- `generate_crontab_playbook` (lines 160-200): the text written to
`playbooks/crontab.yml`. -/
def generate_crontab_playbook (data : Snapshot) : List Char :=
  "---\n- hosts: all\n  become: yes\n  tasks:".data
    ++ ((cronEntriesOf (rootCrontabOf data)).map cronTaskString).flatten

/-- Line 221 of `main`:
`int(data.get('ssh_config', '').split('Port')[1].split()[0]) if 'Port' in data.get('ssh_config', '') else 22`.
`none` models the uncaught `IndexError`/`ValueError` paths. -/
def extract_ssh_port (ssh_config : List Char) : Option Int :=
  if pyContains "Port".data ssh_config then
    match (pySplitSep "Port".data ssh_config)[1]? with
    | none => none
    | some seg =>
      match (pySplitWs seg).head? with
      | none => none
      | some tok => pyInt tok
  else some 22

/-- The ssh port as computed by `main` from the snapshot. -/
def snapshot_ssh_port (data : Snapshot) : Option Int :=
  extract_ssh_port (sshConfigOf data)

/-- The snapshot with every optional field absent. -/
def emptySnapshot : Snapshot :=
  ⟨none, none, none, none, none, none, none⟩

/-! ## Claim-side characterizations -/

/-- A crontab line is well formed when splitting it into at most 6 whitespace
fields yields exactly 6 parts (i.e. it has at least 6 whitespace-separated
tokens, the 6th field being the unsplit remainder). -/
def wfCronLine (l : List Char) : Bool :=
  (pySplit 5 l).length == 6

/-- The entry built from the line at 0-based position `i`; for a line that is
not well formed the fields are padded (that case is never selected). -/
def cronEntryOfLine (i : Nat) (l : List Char) : CronEntry :=
  match pySplit 5 l with
  | [m, h, d, mo, w, c] => ⟨i + 1, m, h, d, mo, w, c⟩
  | _ => ⟨i + 1, [], [], [], [], [], []⟩

/-- Recognize a reference line of the main playbook and return the referenced
file name. -/
def importRef (l : List Char) : Option (List Char) :=
  if "- import_playbook: ".data.isPrefixOf l then
    some (l.drop "- import_playbook: ".data.length)
  else none

/-- The crontab text of the worked example of the spec (section 8). -/
def exampleCrontab : List Char :=
  "0 2 * * * /usr/bin/backup.sh\nbadline\n30 3 * * 1 /usr/bin/report.sh".data

/-- A snapshot whose root crontab is the worked example. -/
def exampleCrontabSnapshot : Snapshot :=
  ⟨none, none, none, some [("root".data, exampleCrontab)], none, none, none⟩

/-- Concrete snapshot for the crontab noninterference check. -/
def snapA : Snapshot :=
  ⟨some "web1".data, some "1.2.3.4".data, some "Port 22".data,
    some [("root".data, "0 2 * * * /usr/bin/backup.sh".data),
      ("alice".data, "1 1 * * * /bin/a".data)],
    some [], some [], some ⟨some "10.0.0.1".data⟩⟩

/-- `snapA` with a different crontab text for the non-root user `alice`. -/
def snapB : Snapshot :=
  ⟨some "web1".data, some "1.2.3.4".data, some "Port 22".data,
    some [("root".data, "0 2 * * * /usr/bin/backup.sh".data),
      ("alice".data, "2 2 * * * /bin/b".data)],
    some [], some [], some ⟨some "10.0.0.1".data⟩⟩

/-! ## Helper lemmas -/

theorem filterMap_eq_map_filter {α β : Type} (f : α → Option β) (p : α → Bool) (g : α → β)
    (h : ∀ a, f a = if p a then some (g a) else none) :
    ∀ l : List α, l.filterMap f = (l.filter p).map g := by
  intro l
  induction l with
  | nil => rfl
  | cons a t ih =>
    rw [List.filterMap_cons, List.filter_cons, h a]
    by_cases hp : p a = true
    · simp [hp, ih]
    · simp [hp, ih]

theorem cronLineTask_eq (p : Nat × List Char) :
    cronLineTask p = if wfCronLine p.2 then some (cronEntryOfLine p.1 p.2) else none := by
  obtain ⟨i, l⟩ := p
  simp only [cronLineTask, wfCronLine, cronEntryOfLine]
  generalize pySplit 5 l = xs
  rcases xs with _ | ⟨a, _ | ⟨b, _ | ⟨c, _ | ⟨d, _ | ⟨e, _ | ⟨f, _ | ⟨g, t⟩⟩⟩⟩⟩⟩⟩ <;>
    simp [List.length]

theorem cronEntriesOf_eq_filter_map (rc : List Char) :
    cronEntriesOf rc =
      (((splitOnNl (pyStrip rc)).enum).filter (fun p => wfCronLine p.2)).map
        (fun p => cronEntryOfLine p.1 p.2) := by
  unfold cronEntriesOf
  exact filterMap_eq_map_filter _ _ _ cronLineTask_eq _

theorem cronEntryOfLine_idx (i : Nat) (l : List Char) :
    (cronEntryOfLine i l).idx = i + 1 := by
  simp only [cronEntryOfLine]
  generalize pySplit 5 l = xs
  rcases xs with _ | ⟨a, _ | ⟨b, _ | ⟨c, _ | ⟨d, _ | ⟨e, _ | ⟨f, _ | ⟨g, t⟩⟩⟩⟩⟩⟩⟩ <;> rfl

theorem enumFrom_filter_snd_length {α : Type} (q : α → Bool) :
    ∀ (n : Nat) (l : List α),
      ((List.enumFrom n l).filter (fun p => q p.2)).length = (l.filter q).length := by
  intro n l
  induction l generalizing n with
  | nil => rfl
  | cons a t ih =>
    rw [List.enumFrom_cons, List.filter_cons, List.filter_cons]
    by_cases hq : q a = true
    · simp [hq, ih]
    · simp [hq, ih]

theorem splitOnNl_ne_nil (s : List Char) : splitOnNl s ≠ [] := by
  induction s with
  | nil => simp [splitOnNl]
  | cons c cs ih =>
    rw [splitOnNl]
    by_cases hc : c = '\n'
    · simp [hc]
    · simp only [hc, if_false]
      cases hsp : splitOnNl cs with
      | nil => simp
      | cons r rs => simp

theorem not_nl_of_mem_splitOnNl (s l : List Char) (hl : l ∈ splitOnNl s) : '\n' ∉ l := by
  induction s generalizing l with
  | nil =>
    simp only [splitOnNl, List.mem_singleton] at hl
    simp [hl]
  | cons c cs ih =>
    rw [splitOnNl] at hl
    by_cases hc : c = '\n'
    · simp only [hc, if_true, List.mem_cons] at hl
      rcases hl with h | h
      · simp [h]
      · exact ih l h
    · simp only [hc, if_false] at hl
      cases hsp : splitOnNl cs with
      | nil => exact absurd hsp (splitOnNl_ne_nil cs)
      | cons r rs =>
        rw [hsp] at hl
        rcases List.mem_cons.mp hl with h | h
        · subst h
          intro hmem
          rcases List.mem_cons.mp hmem with h1 | h1
          · exact hc h1.symm
          · exact ih r (by rw [hsp]; exact List.mem_cons_self r rs) h1
        · exact ih l (by rw [hsp]; exact List.mem_cons_of_mem r h)

theorem splitOnNl_of_not_nl (s : List Char) (h : '\n' ∉ s) : splitOnNl s = [s] := by
  induction s with
  | nil => rfl
  | cons c cs ih =>
    have hc : c ≠ '\n' := fun hcc => h (by simp [hcc])
    rw [splitOnNl]
    simp only [hc, if_false]
    rw [ih (fun hm => h (List.mem_cons_of_mem c hm))]

theorem splitOnNl_append_nl (x rest : List Char) (h : '\n' ∉ x) :
    splitOnNl (x ++ '\n' :: rest) = x :: splitOnNl rest := by
  induction x with
  | nil => simp [splitOnNl]
  | cons c cs ih =>
    have hc : c ≠ '\n' := fun hcc => h (by simp [hcc])
    rw [List.cons_append, splitOnNl]
    simp only [hc, if_false]
    rw [ih (fun hm => h (List.mem_cons_of_mem c hm))]

theorem splitOnNl_pyJoin (xs : List (List Char)) (hne : xs ≠ [])
    (hnl : ∀ l ∈ xs, '\n' ∉ l) :
    splitOnNl (pyJoin "\n".data xs) = xs := by
  induction xs with
  | nil => exact absurd rfl hne
  | cons x t ih =>
    cases t with
    | nil =>
      rw [pyJoin]
      exact splitOnNl_of_not_nl x (hnl x (List.mem_cons_self x []))
    | cons y ys =>
      rw [pyJoin]
      have hx : '\n' ∉ x := hnl x (List.mem_cons_self x (y :: ys))
      have : x ++ "\n".data ++ pyJoin "\n".data (y :: ys) =
          x ++ '\n' :: pyJoin "\n".data (y :: ys) := by
        simp [String.data]
      rw [this, splitOnNl_append_nl x _ hx,
        ih (by simp) (fun l hl => hnl l (List.mem_cons_of_mem x hl))]

theorem pySplitNoneAux_last_suffix :
    ∀ (fuel maxsplit : Nat) (s r : List Char),
      (pySplitNoneAux fuel maxsplit s).length = maxsplit + 1 →
      (pySplitNoneAux fuel maxsplit s).getLast? = some r → r <:+ s := by
  intro fuel
  induction fuel with
  | zero => intro maxsplit s r hlen; simp [pySplitNoneAux] at hlen
  | succ fuel ih =>
    intro maxsplit s r hlen hlast
    rw [pySplitNoneAux] at hlen hlast
    by_cases he : (s.dropWhile isPySpace).isEmpty = true
    · rw [if_pos he] at hlen
      simp at hlen
    · rw [if_neg he] at hlen hlast
      by_cases hm : maxsplit = 0
      · rw [if_pos hm] at hlast
        simp only [List.getLast?_singleton, Option.some.injEq] at hlast
        subst hlast
        exact List.dropWhile_suffix isPySpace
      · rw [if_neg hm] at hlen hlast
        have hlen2 : (pySplitNoneAux fuel (maxsplit - 1)
            ((s.dropWhile isPySpace).dropWhile (fun c => !isPySpace c))).length =
            (maxsplit - 1) + 1 := by
          simp only [List.length_cons] at hlen
          omega
        have hne2 : pySplitNoneAux fuel (maxsplit - 1)
            ((s.dropWhile isPySpace).dropWhile (fun c => !isPySpace c)) ≠ [] := by
          intro hnil
          rw [hnil] at hlen2
          simp at hlen2
        cases hrec : pySplitNoneAux fuel (maxsplit - 1)
            ((s.dropWhile isPySpace).dropWhile (fun c => !isPySpace c)) with
        | nil => exact absurd hrec hne2
        | cons a as =>
          rw [hrec, List.getLast?_cons_cons] at hlast
          have hr : r <:+ (s.dropWhile isPySpace).dropWhile (fun c => !isPySpace c) := by
            apply ih (maxsplit - 1) _ r hlen2
            rw [hrec]
            exact hlast
          exact hr.trans ((List.dropWhile_suffix _).trans (List.dropWhile_suffix isPySpace))

theorem pyContains_iff (needle hay : List Char) :
    pyContains needle hay = true ↔ needle <:+: hay := by
  induction hay with
  | nil =>
    rw [pyContains]
    simp [List.isEmpty_iff, List.infix_nil]
  | cons c cs ih =>
    rw [pyContains]
    simp only [Bool.or_eq_true]
    rw [ List.isPrefixOf_iff_prefix, ih, List.infix_cons_iff]

theorem hostname_prefix_inventory_entry (h ip : List Char) (p : Int) :
    h <+: inventory_entry h ip p := by
  have hre : inventory_entry h ip p =
      h ++ (" ansible_host=".data ++ ip
        ++ " ansible_user=root ansible_port=".data ++ pyStrInt p) := by
    simp [inventory_entry]
  rw [hre]
  exact List.prefix_append h _

/-! ## Claim C1 -/

/-- C1, counterexample: on the spec's worked example
`"0 2 * * * /usr/bin/backup.sh\nbadline\n30 3 * * 1 /usr/bin/report.sh"` the two
produced entries carry indices 1 and 3 (the enumerate index of the source line,
malformed lines included), not 1 and 2, and the generated document names an
entry "Root crontab entry 3" and no entry "Root crontab entry 2". -/
theorem crontab_c1_counterexample :
    (cronEntriesOf exampleCrontab).map CronEntry.idx = [1, 3]
    ∧ (cronEntriesOf exampleCrontab).map CronEntry.idx ≠ [1, 2]
    ∧ pyContains "Root crontab entry 3".data
        (generate_crontab_playbook exampleCrontabSnapshot) = true
    ∧ pyContains "Root crontab entry 2".data
        (generate_crontab_playbook exampleCrontabSnapshot) = false :=
  ⟨by decide, by decide, by decide, by decide⟩

/-- C1 (amended): the crontab generator emits one task per line that splits
(with at most 5 whitespace cuts) into exactly 6 fields, and each emitted entry
is named "Root crontab entry \x7bj\x7d" where `j` is the 1-based position of its
source line among all lines of the stripped crontab text (malformed lines
included); on the worked example the two entries are therefore indexed 1
and 3. -/
theorem crontab_entry_index_line_position :
    (∀ rc : List Char, cronEntriesOf rc =
        (((splitOnNl (pyStrip rc)).enum).filter (fun p => wfCronLine p.2)).map
          (fun p => cronEntryOfLine p.1 p.2))
    ∧ (∀ (i : Nat) (l : List Char), (cronEntryOfLine i l).idx = i + 1)
    ∧ (cronEntriesOf exampleCrontab).map CronEntry.idx = [1, 3] :=
  ⟨cronEntriesOf_eq_filter_map, cronEntryOfLine_idx, by decide⟩

/-! ## Claim C4 -/

/-- C4: the crontab parser yields exactly one `CronEntry` per line whose
`split(None, 5)` has exactly 6 fields, in original line order (the equality
with the filter-then-map form); the 6th field of a well-formed line is the
unsplit remainder of the line (a literal suffix of it); and empty input yields
no entries. -/
theorem crontab_parser_spec :
    (∀ rc : List Char,
        (cronEntriesOf rc).length = ((splitOnNl (pyStrip rc)).filter wfCronLine).length)
    ∧ (∀ rc : List Char, cronEntriesOf rc =
        (((splitOnNl (pyStrip rc)).enum).filter (fun p => wfCronLine p.2)).map
          (fun p => cronEntryOfLine p.1 p.2))
    ∧ (∀ (i : Nat) (l : List Char), wfCronLine l = true →
        (cronEntryOfLine i l).command <:+ l)
    ∧ cronEntriesOf [] = [] := by
  refine ⟨?_, cronEntriesOf_eq_filter_map, ?_, by decide⟩
  · intro rc
    rw [cronEntriesOf_eq_filter_map, List.length_map]
    show ((List.enumFrom 0 _).filter _).length = _
    rw [enumFrom_filter_snd_length]
  · intro i l hwf
    have hlen : (pySplit 5 l).length = 6 := by
      have h6 := hwf
      unfold wfCronLine at h6
      simpa using h6
    rcases hx : pySplit 5 l with _ | ⟨a, _ | ⟨b, _ | ⟨c, _ | ⟨d, _ | ⟨e, _ | ⟨f, _ | ⟨g, t⟩⟩⟩⟩⟩⟩⟩ <;>
        rw [hx] at hlen <;> simp only [List.length_cons, List.length_nil] at hlen <;>
        try omega
    have hcmd : (cronEntryOfLine i l).command = f := by
      unfold cronEntryOfLine
      rw [hx]
    rw [hcmd]
    apply pySplitNoneAux_last_suffix (l.length + 1) 5 l f
    · show (pySplit 5 l).length = 5 + 1
      rw [hx]
      rfl
    · show (pySplit 5 l).getLast? = some f
      rw [hx]
      rfl

/-- Witness for `crontab_parser_spec` at a concrete well-formed line. -/
theorem crontab_parser_spec_witness :
    wfCronLine "0 2 * * * /usr/bin/backup.sh now".data = true
    ∧ (cronEntryOfLine 0 "0 2 * * * /usr/bin/backup.sh now".data).command <:+
        "0 2 * * * /usr/bin/backup.sh now".data :=
  ⟨by decide, crontab_parser_spec.2.2.1 0 _ (by decide)⟩

/-! ## Claim C2 -/

/-- C2, counterexample: on the ssh_config text `"GatewayPorts yes"` (which has
no `Port` directive as a token, but contains the substring `Port`) the
extraction raises (`none`) instead of returning 22, so it is neither total nor
token-based. -/
theorem ssh_port_c2_counterexample :
    extract_ssh_port "GatewayPorts yes".data = none
    ∧ (none : Option Int) ≠ some 22 :=
  ⟨by decide, by decide⟩

/-- C2 (amended): the extracted port is 22 exactly in the cases where the
substring `"Port"` does not occur anywhere in the ssh_config text; when it
does occur — even inside a longer word or a comment — the code int-parses the
first whitespace token of the segment following the first occurrence, which
fails on `"GatewayPorts yes"`, returns 2222 on `"Port 2222"`, and returns 2200
(the commented-out value) on `"#Port 2200\nPort 22"`. -/
theorem ssh_port_amended :
    (∀ cfg : List Char, pyContains "Port".data cfg = false →
        extract_ssh_port cfg = some 22)
    ∧ extract_ssh_port "GatewayPorts yes".data = none
    ∧ extract_ssh_port "Port 2222".data = some 2222
    ∧ extract_ssh_port "#Port 2200\nPort 22".data = some 2200 := by
  refine ⟨?_, by decide, by decide, by decide⟩
  intro cfg h
  unfold extract_ssh_port
  rw [if_neg (by simp [h])]

/-- Witness for `ssh_port_amended` at a concrete Port-free config. -/
theorem ssh_port_amended_witness :
    pyContains "Port".data "UseDNS no".data = false
    ∧ extract_ssh_port "UseDNS no".data = some 22 :=
  ⟨by decide, ssh_port_amended.1 _ (by decide)⟩

/-! ## Claim C3 -/

/-- C3: merging into a missing file creates it with exactly the entry line;
merging into an existing file appends a newline plus the entry when the
hostname is not a substring of the contents and leaves the file unchanged
otherwise; concretely, after a file holds the `web1` line, merging `web10`
appends and a subsequent merge of `web1` changes nothing. -/
theorem update_inventory_cases :
    (∀ (h ip : List Char) (p : Int),
        update_inventory h ip p none = some (inventory_entry h ip p))
    ∧ (∀ (h ip : List Char) (p : Int) (content : List Char),
        pyContains h content = true →
        update_inventory h ip p (some content) = some content)
    ∧ (∀ (h ip : List Char) (p : Int) (content : List Char),
        pyContains h content = false →
        update_inventory h ip p (some content) =
          some (content ++ '\n' :: inventory_entry h ip p))
    ∧ update_inventory "web10".data "5.6.7.8".data 22
        (some (inventory_entry "web1".data "1.2.3.4".data 22)) =
        some (inventory_entry "web1".data "1.2.3.4".data 22
          ++ '\n' :: inventory_entry "web10".data "5.6.7.8".data 22)
    ∧ update_inventory "web1".data "1.2.3.4".data 22
        (some (inventory_entry "web1".data "1.2.3.4".data 22
          ++ '\n' :: inventory_entry "web10".data "5.6.7.8".data 22)) =
        some (inventory_entry "web1".data "1.2.3.4".data 22
          ++ '\n' :: inventory_entry "web10".data "5.6.7.8".data 22) := by
  refine ⟨fun h ip p => rfl, ?_, ?_, by decide, by decide⟩
  · intro h ip p content hc
    simp only [update_inventory]
    rw [if_pos hc]
  · intro h ip p content hc
    simp only [update_inventory]
    rw [if_neg (by simp [hc])]

/-- Witness for `update_inventory_cases` on a concrete existing file. -/
theorem update_inventory_cases_witness :
    pyContains "web1".data (inventory_entry "web1".data "1.2.3.4".data 22) = true
    ∧ update_inventory "web1".data "9.9.9.9".data 2222
        (some (inventory_entry "web1".data "1.2.3.4".data 22)) =
        some (inventory_entry "web1".data "1.2.3.4".data 22) :=
  ⟨by decide, update_inventory_cases.2.1 _ _ _ _ (by decide)⟩

/-! ## Claim C5 -/

/-- C5: the embedded ssh text consists of exactly the input lines that are
non-blank after trimming and do not start with `#` after trimming, in their
original relative order, each prefixed with ten spaces: splitting the embedded
output back into lines recovers precisely the kept lines with the prefix (and
the output is empty when no line is kept). -/
theorem ssh_extractor_line_filter :
    (∀ cfg : List Char, (splitOnNl cfg).filter keepSshLine = [] →
        indented_ssh_config cfg = [])
    ∧ (∀ cfg : List Char, (splitOnNl cfg).filter keepSshLine ≠ [] →
        splitOnNl (indented_ssh_config cfg) =
          ((splitOnNl cfg).filter keepSshLine).map
            (fun line => "          ".data ++ line)) := by
  constructor
  · intro cfg h
    unfold indented_ssh_config
    rw [h]
    rfl
  · intro cfg h
    unfold indented_ssh_config
    apply splitOnNl_pyJoin
    · simpa using h
    · intro l hl
      rcases List.mem_map.mp hl with ⟨l0, hl0, rfl⟩
      intro hmem
      rcases List.mem_append.mp hmem with h1 | h1
      · exact absurd h1 (by decide)
      · exact not_nl_of_mem_splitOnNl cfg l0 (List.mem_of_mem_filter hl0) h1

/-- Witness for `ssh_extractor_line_filter` on a concrete sshd config. -/
theorem ssh_extractor_line_filter_witness :
    (splitOnNl "Port 22\n# managed\n\nUseDNS no".data).filter keepSshLine ≠ []
    ∧ splitOnNl (indented_ssh_config "Port 22\n# managed\n\nUseDNS no".data) =
        ((splitOnNl "Port 22\n# managed\n\nUseDNS no".data).filter keepSshLine).map
          (fun line => "          ".data ++ line) :=
  ⟨by decide, ssh_extractor_line_filter.2 _ (by decide)⟩

/-! ## Claim C6 -/

/-- C6: merging is a no-op whenever the hostname already occurs as a substring
of the file contents, and merging twice with the same arguments (from any
starting state, including a missing file) gives the same file as merging once;
hence a second line for the hostname is never added. -/
theorem update_inventory_idempotent :
    (∀ (h ip : List Char) (p : Int) (content : List Char),
        pyContains h content = true →
        update_inventory h ip p (some content) = some content)
    ∧ (∀ (h ip : List Char) (p : Int) (st : Option (List Char)),
        update_inventory h ip p (update_inventory h ip p st) =
          update_inventory h ip p st) := by
  have hpre : ∀ (h ip : List Char) (p : Int),
      pyContains h (inventory_entry h ip p) = true := by
    intro h ip p
    rw [pyContains_iff]
    exact (hostname_prefix_inventory_entry h ip p).isInfix
  have hskip : ∀ (h ip : List Char) (p : Int) (content : List Char),
      pyContains h content = true →
      update_inventory h ip p (some content) = some content := by
    intro h ip p content hc
    simp only [update_inventory]
    rw [if_pos hc]
  refine ⟨hskip, ?_⟩
  intro h ip p st
  cases st with
  | none =>
    show update_inventory h ip p (some (inventory_entry h ip p)) = _
    exact hskip h ip p _ (hpre h ip p)
  | some content =>
    by_cases hc : pyContains h content = true
    · have h1 := hskip h ip p content hc
      rw [h1]
      exact h1
    · have h1 : update_inventory h ip p (some content) =
          some (content ++ '\n' :: inventory_entry h ip p) := by
        simp only [update_inventory]
        rw [if_neg hc]
      have h2 : pyContains h (content ++ '\n' :: inventory_entry h ip p) = true := by
        rw [pyContains_iff]
        have hsfx : inventory_entry h ip p <:+ content ++ '\n' :: inventory_entry h ip p := by
          have hre : content ++ '\n' :: inventory_entry h ip p =
              (content ++ ['\n']) ++ inventory_entry h ip p := by
            simp
          rw [hre]
          exact List.suffix_append _ _
        exact ((hostname_prefix_inventory_entry h ip p).isInfix).trans hsfx.isInfix
      rw [h1]
      exact hskip h ip p _ h2

/-- Witness for `update_inventory_idempotent` on a concrete file state. -/
theorem update_inventory_idempotent_witness :
    pyContains "web1".data
      "web1 ansible_host=1.2.3.4 ansible_user=root ansible_port=22".data = true
    ∧ update_inventory "web1".data "1.2.3.4".data 22
        (some "web1 ansible_host=1.2.3.4 ansible_user=root ansible_port=22".data) =
        some "web1 ansible_host=1.2.3.4 ansible_user=root ansible_port=22".data :=
  ⟨by decide, update_inventory_idempotent.1 _ _ _ _ (by decide)⟩

/-! ## Claim C8 -/

/-- C8: merging into an existing file is append-only — the prior contents are
always a prefix of the new contents (with an empty or `"\n" + entry` tail), so
existing lines are never rewritten, reordered or deduplicated. -/
theorem update_inventory_append_only :
    ∀ (h ip : List Char) (p : Int) (content : List Char),
      ∃ tail : List Char,
        update_inventory h ip p (some content) = some (content ++ tail) := by
  intro h ip p content
  by_cases hc : pyContains h content = true
  · refine ⟨[], ?_⟩
    simp only [update_inventory]
    rw [if_pos hc]
    simp
  · refine ⟨'\n' :: inventory_entry h ip p, ?_⟩
    simp only [update_inventory]
    rw [if_neg hc]

/-! ## Claim C7 -/

/-- C7, counterexample: with every optional field absent, the packages
document still contains one task (`- name: Install required packages` with an
empty loop), not zero tasks. -/
theorem generators_c7_counterexample :
    countOccur "- name:".data (generate_packages_playbook emptySnapshot) = 1
    ∧ (1 : Nat) ≠ 0 :=
  ⟨by decide, by decide⟩

/-- C7 (amended): when all optional snapshot fields are absent every generator
still runs without raising, but only the crontab document has no tasks; the
packages, services and network documents each contain their one fixed task
(with an empty loop or placeholder value) and the ssh document its two fixed
tasks (task count measured as the number of `"- name:"` occurrences). -/
theorem generators_absent_fields :
    ∀ data : Snapshot,
      data.ssh_config = none → data.crontab = none → data.installed_packages = none →
      data.services = none → data.network = none →
      countOccur "- name:".data (generate_packages_playbook data) = 1
      ∧ countOccur "- name:".data (generate_services_playbook data) = 1
      ∧ countOccur "- name:".data (generate_network_playbook data) = 1
      ∧ countOccur "- name:".data (generate_ssh_playbook data) = 2
      ∧ countOccur "- name:".data (generate_crontab_playbook data) = 0 := by
  intro data hs hc hp hv hn
  refine ⟨?_, ?_, ?_, ?_, ?_⟩
  · simp only [generate_packages_playbook]
    rw [hp]
    decide
  · simp only [generate_services_playbook]
    rw [hv]
    decide
  · simp only [generate_network_playbook]
    rw [hn]
    decide
  · simp only [generate_ssh_playbook, sshConfigOf]
    rw [hs]
    decide
  · simp only [generate_crontab_playbook, rootCrontabOf]
    rw [hc]
    decide

/-- Witness for `generators_absent_fields` at the all-absent snapshot. -/
theorem generators_absent_fields_witness :
    emptySnapshot.ssh_config = none
    ∧ (countOccur "- name:".data (generate_packages_playbook emptySnapshot) = 1
      ∧ countOccur "- name:".data (generate_services_playbook emptySnapshot) = 1
      ∧ countOccur "- name:".data (generate_network_playbook emptySnapshot) = 1
      ∧ countOccur "- name:".data (generate_ssh_playbook emptySnapshot) = 2
      ∧ countOccur "- name:".data (generate_crontab_playbook emptySnapshot) = 0) :=
  ⟨rfl, generators_absent_fields emptySnapshot rfl rfl rfl rfl rfl⟩

/-! ## Claim C9 -/

/-- C9: the main playbook text references exactly the five subsystem documents
by name, in the fixed order packages, services, network, ssh, crontab; every
line of it is blank, the document marker `---`, or one of those references (no
inlined content); and the file is written to `playbooks/\x7bhostname\x7d.yml`
where the hostname defaults to `unknown` when the field is absent. -/
theorem main_playbook_spec :
    (splitOnNl generate_main_playbook_content).filterMap importRef =
      ["packages.yml".data, "services.yml".data, "network.yml".data,
        "ssh.yml".data, "crontab.yml".data]
    ∧ (∀ l ∈ splitOnNl generate_main_playbook_content,
        pyStrip l = [] ∨ l = "---".data ∨ (importRef l).isSome = true)
    ∧ (∀ data : Snapshot, data.hostname = none →
        generate_main_playbook_path (hostnameOf data) = "playbooks/unknown.yml".data)
    ∧ (∀ (data : Snapshot) (hname : List Char), data.hostname = some hname →
        generate_main_playbook_path (hostnameOf data) =
          "playbooks/".data ++ hname ++ ".yml".data) := by
  refine ⟨by decide, by decide, ?_, ?_⟩
  · intro data h
    simp only [generate_main_playbook_path, hostnameOf]
    rw [h]
    rfl
  · intro data hname h
    simp only [generate_main_playbook_path, hostnameOf]
    rw [h]
    rfl

/-- Witness for `main_playbook_spec` at a hostname-free snapshot. -/
theorem main_playbook_spec_witness :
    emptySnapshot.hostname = none
    ∧ generate_main_playbook_path (hostnameOf emptySnapshot) =
        "playbooks/unknown.yml".data :=
  ⟨rfl, main_playbook_spec.2.2.1 emptySnapshot rfl⟩

/-! ## Claim C10 -/

/-- C10: the generators read only the `root` key of the crontab mapping — any
two snapshots that agree on every non-crontab field and on
`crontab.get('root', '')` (in particular, snapshots differing only in the
crontab text of users other than `root`) produce identical crontab documents
and identical values for every other output of the program. -/
theorem crontab_only_root_noninterference :
    ∀ s1 s2 : Snapshot,
      s1.hostname = s2.hostname → s1.public_ip = s2.public_ip →
      s1.ssh_config = s2.ssh_config →
      s1.installed_packages = s2.installed_packages →
      s1.services = s2.services → s1.network = s2.network →
      rootCrontabOf s1 = rootCrontabOf s2 →
      generate_crontab_playbook s1 = generate_crontab_playbook s2
      ∧ generate_packages_playbook s1 = generate_packages_playbook s2
      ∧ generate_services_playbook s1 = generate_services_playbook s2
      ∧ generate_network_playbook s1 = generate_network_playbook s2
      ∧ generate_ssh_playbook s1 = generate_ssh_playbook s2
      ∧ hostnameOf s1 = hostnameOf s2
      ∧ publicIpOf s1 = publicIpOf s2
      ∧ generate_main_playbook_path (hostnameOf s1) =
          generate_main_playbook_path (hostnameOf s2)
      ∧ snapshot_ssh_port s1 = snapshot_ssh_port s2
      ∧ (∀ (p : Int) (st : Option (List Char)),
          update_inventory (hostnameOf s1) (publicIpOf s1) p st =
            update_inventory (hostnameOf s2) (publicIpOf s2) p st) := by
  intro s1 s2 hh hp hs hpk hsv hnw hcr
  refine ⟨?_, ?_, ?_, ?_, ?_, ?_, ?_, ?_, ?_, ?_⟩ <;>
    simp [generate_crontab_playbook, generate_packages_playbook,
      generate_services_playbook, generate_network_playbook, generate_ssh_playbook,
      hostnameOf, publicIpOf, generate_main_playbook_path, snapshot_ssh_port,
      sshConfigOf, hh, hp, hs, hpk, hsv, hnw, hcr]

/-- Witness for `crontab_only_root_noninterference`: two snapshots differing
only in the crontab text of user `alice` generate the same crontab document. -/
theorem crontab_only_root_noninterference_witness :
    rootCrontabOf snapA = rootCrontabOf snapB
    ∧ generate_crontab_playbook snapA = generate_crontab_playbook snapB :=
  ⟨by decide,
    (crontab_only_root_noninterference snapA snapB rfl rfl rfl rfl rfl rfl (by decide)).1⟩
